import Mathlib

/-!
Shallow embedding of the order server in `src/server/server.js` (an Express
HTTP server persisting orders to a JSON file), together with proofs about the
spec's claims.  JavaScript strings are `String`, finite JavaScript numbers are
`ℚ` (the numeric payload fields carry an explicit truthiness flag and a
`none` value for NaN/Infinity so the `Number(x || d)` coercions and
`Number.isFinite` checks of the source can be expressed), the JSON document on
disk is an inductive `Json` value (the textual `JSON.stringify`/`JSON.parse`
layer is abstracted: a parsable file holds the parsed `Json` value, an
unparsable one is the distinguished `unparsable` state).
-/

namespace GG

/-- A JavaScript numeric payload field as the server receives it:
`truthy` records whether the raw value is truthy (so `x || default` picks the
raw value), and `val` is `Number(raw)` — `some q` for a finite result,
`none` for NaN/Infinity. -/
structure JNumField where
  truthy : Bool
  val : Option ℚ
deriving DecidableEq, Repr

/-- Evaluates `Number(raw || dflt)` from the source: a falsy raw value is
replaced by the (finite, literal) default before coercion. -/
def coerceNum (f : JNumField) (dflt : ℚ) : Option ℚ :=
  if f.truthy then f.val else some dflt

/-- Removes leading whitespace characters from a character list. -/
def dropLeadingWs : List Char → List Char
  | [] => []
  | c :: cs => if c.isWhitespace then dropLeadingWs cs else c :: cs

/-- JavaScript `String.prototype.trim`: strips leading and trailing
whitespace. -/
def jsTrim (s : String) : String :=
  ⟨(dropLeadingWs (dropLeadingWs s.data).reverse).reverse⟩

/-- ASCII lower-casing of one character, as `toLowerCase` acts on the
`A`-`Z` range (the only characters the source ever compares after
lower-casing). -/
def lowerChar (c : Char) : Char :=
  if 'A' ≤ c ∧ c ≤ 'Z' then Char.ofNat (c.toNat + 32) else c

/-- JavaScript `String.prototype.toLowerCase` on ASCII strings. -/
def jsToLower (s : String) : String := ⟨s.data.map lowerChar⟩

/-- The embedded `customer` record of an order (server.js line 171). -/
structure Customer where
  name : String
  phone : String
  address : String
deriving DecidableEq, Repr

/-- An order object exactly as built by the POST /api/order handler
(server.js lines 158-172). -/
structure Order where
  orderId : String
  createdAt : String
  status : String
  productId : String
  productName : String
  productLink : String
  unitPrice : ℚ
  qty : ℚ
  size : String
  area : String
  shipping : ℚ
  total : ℚ
  customer : Customer
deriving DecidableEq, Repr

/-- An inbound order-creation payload.  String-valued fields are the result of
the JavaScript `String(...)` coercion with `""` standing for an absent or
falsy raw value; `qty` and `unitPrice` keep their raw truthiness and numeric
coercion. -/
structure Payload where
  productId : String
  productName : String
  productLink : String
  name : String
  phone : String
  address : String
  qty : JNumField
  unitPrice : JNumField
  size : String
  area : String
deriving DecidableEq, Repr

/-- The identifier alphabet of `makeOrderId` (server.js line 58). -/
def orderIdChars : List Char := "ABCDEFGHJKLMNPQRSTUVWXYZ23456789".data

/-- `makeOrderId` (server.js lines 57-62).  The random source is a stream of
natural numbers, one per generated character; `Math.floor(Math.random() *
chars.length)` is an arbitrary index below `chars.length`, rendered here as
`rand i % orderIdChars.length`. -/
def makeOrderId (rand : Fin 10 → Nat) : String :=
  "GG-" ++ String.mk ((List.finRange 10).map fun i =>
    orderIdChars.getD (rand i % orderIdChars.length) 'A')

/-- `isAuthorized` (server.js lines 65-70).  `env` is `process.env.ADMIN_TOKEN`
(`""` when unset), `header` is the `x-admin-token` header and `query` the
`token` query parameter (`""` when absent); `header || query || ""` picks the
header when it is truthy, otherwise the query value. -/
def isAuthorized (env header query : String) : Bool :=
  let adminToken := jsTrim env
  let token := jsTrim (if header ≠ "" then header else query)
  if adminToken = "" then true else token = adminToken

/-- The `area` normalization of the create handler (server.js lines 133-136):
lower-cased trimmed `"dhaka"` maps to `"dhaka"`, `"outside"`/`"outside dhaka"`
to `"outside"`, anything else to `""` (later rejected). -/
def areaOf (body : Payload) : String :=
  if jsToLower (jsTrim body.area) = "dhaka" then "dhaka"
  else if jsToLower (jsTrim body.area) = "outside" ∨ jsToLower (jsTrim body.area) = "outside dhaka"
    then "outside"
  else ""

/-- The order object literal of the create handler (server.js lines 158-172),
given the already-validated numeric fields, the generated id and the
timestamp. -/
def buildOrder (body : Payload) (newId now : String) (qty unitPrice : ℚ) : Order :=
  { orderId := newId
    createdAt := now
    status := "new"
    productId := jsTrim body.productId
    productName := jsTrim body.productName
    productLink := if body.productLink ≠ "" then body.productLink else ""
    unitPrice := unitPrice
    qty := qty
    size := if body.size ≠ "" then body.size else ""
    area := areaOf body
    shipping := if areaOf body = "dhaka" then 70 else 130
    total := qty * unitPrice + (if areaOf body = "dhaka" then 70 else 130)
    customer := { name := jsTrim body.name, phone := jsTrim body.phone,
                  address := jsTrim body.address } }

/-- The POST /api/order handler (server.js lines 112-186) as a function of the
payload, the freshly generated id, the current timestamp and the loaded order
collection.  `.error (code, msg)` is an error response with that HTTP status,
`.ok (orders, orderId)` is the success path: the new order is unshifted onto
the collection, the collection is persisted, and the id is returned. -/
def postOrder (body : Payload) (newId now : String) (orders : List Order) :
    Except (Nat × String) (List Order × String) :=
  if jsTrim body.productId = "" then .error (400, "Missing productId")
  else if jsTrim body.productName = "" then .error (400, "Missing productName")
  else if jsTrim body.name = "" then .error (400, "Missing customer name")
  else if jsTrim body.phone = "" then .error (400, "Missing phone")
  else if jsTrim body.address = "" then .error (400, "Missing address")
  else match coerceNum body.qty 1 with
    | none => .error (400, "Invalid qty")
    | some qty =>
      if qty < 1 then .error (400, "Invalid qty")
      else match coerceNum body.unitPrice 0 with
        | none => .error (400, "Invalid unitPrice")
        | some unitPrice =>
          if unitPrice ≤ 0 then .error (400, "Invalid unitPrice")
          else if areaOf body = "" then .error (400, "Invalid area. Use dhaka / outside")
          else .ok (buildOrder body newId now qty unitPrice :: orders, newId)

/-- A JSON value, the result of `JSON.parse` on the orders file.  JSON has no
NaN, so numbers are plain rationals.  A JavaScript array is an object, so
`arr` carries, besides its elements, the named properties attached to the
array object (always empty straight out of `JSON.parse`; `parsed.orders = []`
on an array document attaches one). -/
inductive Json where
  | null
  | bool (b : Bool)
  | num (q : ℚ)
  | str (s : String)
  | arr (xs : List Json) (props : List (String × Json))
  | obj (fields : List (String × Json))

/-- JavaScript truthiness of a JSON value. -/
def Json.truthy : Json → Bool
  | .null => false
  | .bool b => b
  | .num q => decide (q ≠ 0)
  | .str s => decide (s ≠ "")
  | .arr _ _ => true
  | .obj _ => true

/-- Whether `typeof v === "object"` holds in JavaScript (true for objects,
arrays and null). -/
def Json.isObjType : Json → Bool
  | .null => true
  | .arr _ _ => true
  | .obj _ => true
  | _ => false

/-- `Array.isArray`. -/
def Json.isArray : Json → Bool
  | .arr _ _ => true
  | _ => false

/-- Property access `j.k`: the value bound to the first occurrence of key `k`
among the object's fields — for an array, among the properties attached to
the array object — or `null` for a missing key or a primitive (standing for
`undefined`, which the source only ever tests with falsy / `Array.isArray`
checks).  Element-index access is not modelled; the source never performs it
on the parsed document. -/
def Json.get (j : Json) (k : String) : Json :=
  match j with
  | .obj fs => match fs.lookup k with
    | some v => v
    | none => .null
  | .arr _ ps => match ps.lookup k with
    | some v => v
    | none => .null
  | _ => .null

/-- Helper for property assignment: replace the first binding of `k` in place,
or append one. -/
def setField (k : String) (v : Json) : List (String × Json) → List (String × Json)
  | [] => [(k, v)]
  | (k', v') :: fs =>
    if k' = k then (k, v) :: fs else (k', v') :: setField k v fs

/-- Property assignment `j.k = v`: replaces or adds the binding on an object,
and attaches the property to the array object on an array.  On primitives it
is a no-op; the source only assigns after its truthy-and-object-typed check,
which admits exactly objects and arrays (JavaScript would throw on null or
undefined and silently drop the property on other primitives). -/
def Json.set (j : Json) (k : String) (v : Json) : Json :=
  match j with
  | .obj fs => .obj (setField k v fs)
  | .arr xs ps => .arr xs (setField k v ps)
  | x => x

/-- The document `{ orders: [] }` written by `ensureOrdersFile`
(server.js line 31). -/
def emptyDb : Json := .obj [("orders", .arr [] [])]

/-- The state of the orders file on disk.  `parsed j` is a file whose text
parses to the JSON value `j`; `unparsable` is a file whose text makes
`JSON.parse` throw; `missing` is an absent file.  The textual layer is
abstracted: `JSON.parse (JSON.stringify v) = v` for JSON values, so a write of
`v` yields the state `parsed v`. -/
inductive FileContent where
  | missing
  | unparsable
  | parsed (j : Json)

/-- `ensureOrdersFile` (server.js lines 29-34): creates the file with the
empty document when it does not exist. -/
def ensureOrdersFile : FileContent → FileContent
  | .missing => .parsed emptyDb
  | f => f

/-- `readOrders` (server.js lines 36-48), returning the in-memory database
object together with the file state afterwards (it writes only through
`ensureOrdersFile`).  An unparsable file is recovered to `{ orders: [] }` by
the catch; a parsed value that is falsy or not object-typed is replaced by
`{ orders: [] }`; an object whose `orders` is not an array gets `orders`
reset to `[]` in memory. -/
def readOrders (f : FileContent) : Json × FileContent :=
  match ensureOrdersFile f with
  | .missing => (emptyDb, .parsed emptyDb)
  | .unparsable => (emptyDb, .unparsable)
  | .parsed j =>
    if ¬ (j.truthy && j.isObjType) then (emptyDb, .parsed j)
    else if ¬ (j.get "orders").isArray then (j.set "orders" (.arr [] []), .parsed j)
    else (j, .parsed j)

/-- `writeOrders` (server.js lines 50-55): stringify the database object and
atomically replace the file, so the new state holds exactly that value. -/
def writeOrders (db : Json) : FileContent := .parsed db

/-- The JSON encoding of the customer record, fields in source order. -/
def encodeCustomer (c : Customer) : Json :=
  .obj [("name", .str c.name), ("phone", .str c.phone), ("address", .str c.address)]

/-- The JSON encoding of an order, fields in the order of the object literal
at server.js lines 158-172. -/
def encodeOrder (o : Order) : Json :=
  .obj [("orderId", .str o.orderId), ("createdAt", .str o.createdAt),
        ("status", .str o.status), ("productId", .str o.productId),
        ("productName", .str o.productName), ("productLink", .str o.productLink),
        ("unitPrice", .num o.unitPrice), ("qty", .num o.qty),
        ("size", .str o.size), ("area", .str o.area),
        ("shipping", .num o.shipping), ("total", .num o.total),
        ("customer", encodeCustomer o.customer)]

/-- The JSON document holding an order collection: `{ orders: [...] }`. -/
def encodeDb (os : List Order) : Json := .obj [("orders", .arr (os.map encodeOrder) [])]

/-- Reads a JSON string value. -/
def asStr : Json → Option String
  | .str s => some s
  | _ => none

/-- Reads a JSON number value. -/
def asNum : Json → Option ℚ
  | .num q => some q
  | _ => none

/-- Decodes a customer record from its JSON encoding. -/
def decodeCustomer (j : Json) : Option Customer := do
  let name ← asStr (j.get "name")
  let phone ← asStr (j.get "phone")
  let address ← asStr (j.get "address")
  pure { name := name, phone := phone, address := address }

/-- Decodes an order from its JSON encoding. -/
def decodeOrder (j : Json) : Option Order := do
  let orderId ← asStr (j.get "orderId")
  let createdAt ← asStr (j.get "createdAt")
  let status ← asStr (j.get "status")
  let productId ← asStr (j.get "productId")
  let productName ← asStr (j.get "productName")
  let productLink ← asStr (j.get "productLink")
  let unitPrice ← asNum (j.get "unitPrice")
  let qty ← asNum (j.get "qty")
  let size ← asStr (j.get "size")
  let area ← asStr (j.get "area")
  let shipping ← asNum (j.get "shipping")
  let total ← asNum (j.get "total")
  let customer ← decodeCustomer (j.get "customer")
  pure { orderId := orderId, createdAt := createdAt, status := status,
         productId := productId, productName := productName,
         productLink := productLink, unitPrice := unitPrice, qty := qty,
         size := size, area := area, shipping := shipping, total := total,
         customer := customer }

/-- Decodes an order collection from a database document. -/
def decodeDb (j : Json) : Option (List Order) :=
  match j.get "orders" with
  | .arr xs _ => xs.mapM decodeOrder
  | _ => none

/-- The GET /api/orders handler (server.js lines 189-202) on the loaded
collection: `(status, ok)` response plus the body collection (empty on 401). -/
def getOrders (auth : Bool) (orders : List Order) : (Nat × Bool) × List Order :=
  if ¬ auth then ((401, false), [])
  else ((200, true), orders)

/-- First-match status update, mirroring `findIndex` on `orderId` followed by
`db.orders[idx].status = String(status)` (server.js lines 216-219); `none`
when no order matches. -/
def setStatusFirst (oid s : String) : List Order → Option (List Order)
  | [] => none
  | o :: os =>
    if o.orderId = oid then some ({ o with status := s } :: os)
    else (setStatusFirst oid s os).map (o :: ·)

/-- The PATCH /api/orders/:orderId handler (server.js lines 205-227):
`(status, ok)` response plus the stored collection afterwards (unchanged
unless the update is written).  `status = none` is an absent `status` field;
`some ""` is an empty one; both are falsy and rejected. -/
def patchOrders (auth : Bool) (oid : String) (status : Option String)
    (orders : List Order) : (Nat × Bool) × List Order :=
  if ¬ auth then ((401, false), orders)
  else match status with
    | none => ((400, false), orders)
    | some s =>
      if s = "" then ((400, false), orders)
      else match setStatusFirst oid s orders with
        | none => ((404, false), orders)
        | some orders' => ((200, true), orders')

/-- The DELETE /api/orders/:orderId handler (server.js lines 230-252):
response `(status, ok, deleted)` plus the stored collection afterwards.  The
filtered collection is only written when something was removed. -/
def deleteOrder (auth : Bool) (oid : String) (orders : List Order) :
    (Nat × Bool × Nat) × List Order :=
  if ¬ auth then ((401, false, 0), orders)
  else
    let kept := orders.filter (fun o => decide (o.orderId ≠ oid))
    if kept.length = orders.length then ((404, false, 0), orders)
    else ((200, true, 1), kept)

/-- The POST /api/orders/bulk-delete handler (server.js lines 255-278):
`ids` is the string-coerced `orderIds` array (`[]` when absent or not an
array); response `(status, ok, deleted)` plus the stored collection. -/
def bulkDelete (auth : Bool) (ids : List String) (orders : List Order) :
    (Nat × Bool × Nat) × List Order :=
  if ¬ auth then ((401, false, 0), orders)
  else if ids.length = 0 then ((400, false, 0), orders)
  else
    let kept := orders.filter (fun o => decide (o.orderId ∉ ids))
    ((200, true, orders.length - kept.length), kept)

/-- Pairwise-distinct order ids, the collection invariant of spec §3. -/
def distinctIds (orders : List Order) : Prop :=
  (orders.map (fun o => o.orderId)).Nodup

instance (orders : List Order) : Decidable (distinctIds orders) := by
  unfold distinctIds; infer_instance

/-- A concrete valid creation payload, used to instantiate the theorems below
(spec §8's first example, `area:"Dhaka"`). -/
def cBody : Payload :=
  { productId := "p1", productName := "Jacket", productLink := "",
    name := "A", phone := "017", address := "X",
    qty := ⟨true, some 2⟩, unitPrice := ⟨true, some 500⟩,
    size := "", area := "Dhaka" }

/-- The same payload with an unrecognized `area` value. -/
def cBadAreaBody : Payload := { cBody with area := "mars" }

/-- The all-zeros outcome of the random source; `makeOrderId rand0`
evaluates to `"GG-AAAAAAAAAA"`. -/
def rand0 : Fin 10 → Nat := fun _ => 0

/-- The order created from `cBody` with id `GG-AAAAAAAAAA` at time `t0`. -/
def order0 : Order := buildOrder cBody "GG-AAAAAAAAAA" "t0" 2 500

/-- An order with the same id as `order0` created at time `t1`. -/
def order1 : Order := buildOrder cBody "GG-AAAAAAAAAA" "t1" 2 500

/-- An order with a different id, used alongside `order0`. -/
def orderB : Order := buildOrder cBody "GG-BBBBBBBBBB" "t0" 2 500

end GG

namespace GG

/-- Inverting the create handler's success case: the response id is the
generated id and the new collection is the built order prepended to the old
one, with all validation checks known to have passed. -/
theorem postOrder_ok_elim {body : Payload} {newId now : String} {orders os' : List Order}
    {rid : String} (h : postOrder body newId now orders = .ok (os', rid)) :
    rid = newId ∧ areaOf body ≠ "" ∧
    ∃ qty unitPrice : ℚ, coerceNum body.qty 1 = some qty ∧ ¬ qty < 1 ∧
      coerceNum body.unitPrice 0 = some unitPrice ∧ ¬ unitPrice ≤ 0 ∧
      os' = buildOrder body newId now qty unitPrice :: orders := by
  unfold postOrder at h
  repeat' split at h
  all_goals simp_all
  rename_i hq hup harea
  obtain ⟨h1, h2⟩ := h
  subst h1 h2
  rfl

/-- Every rejection of the create handler carries HTTP status 400. -/
theorem postOrder_error_code {body : Payload} {newId now : String} {orders : List Order}
    {c : Nat} {msg : String} (h : postOrder body newId now orders = .error (c, msg)) :
    c = 400 := by
  unfold postOrder at h
  repeat' split at h
  all_goals simp_all

/-- Every index drawn by the generator lands inside the alphabet. -/
theorem orderIdChars_getD_mem (n : Nat) :
    orderIdChars.getD (n % orderIdChars.length) 'A' ∈ orderIdChars := by
  have hlen : orderIdChars.length = 32 := by decide
  have hlt : n % orderIdChars.length < orderIdChars.length := Nat.mod_lt _ (by rw [hlen]; omega)
  rw [List.getD_eq_getElem _ _ hlt]
  exact List.getElem_mem _

/-- Shape of every generated identifier: the `GG-` tag followed by ten
alphabet characters. -/
theorem makeOrderId_shape (rand : Fin 10 → Nat) :
    ∃ s : String, makeOrderId rand = "GG-" ++ s ∧ s.length = 10 ∧
      ∀ c ∈ s.data, c ∈ orderIdChars := by
  refine ⟨_, rfl, ?_, ?_⟩
  · simp [String.length]
  · intro c hc
    simp only [String.mk] at hc
    simp only [List.mem_map] at hc
    obtain ⟨i, -, rfl⟩ := hc
    exact orderIdChars_getD_mem _

end GG

namespace GG

/-- The setter used by `parsed.orders = []` resolves lookups of the assigned
key to the assigned value. -/
theorem lookup_setField (k : String) (v : Json) (fs : List (String × Json)) :
    (setField k v fs).lookup k = some v := by
  induction fs with
  | nil => simp [setField]
  | cons p fs ih =>
    obtain ⟨k', v'⟩ := p
    by_cases hk : k' = k
    · simp [setField, hk]
    · have hb : (k == k') = false := beq_eq_false_iff_ne.mpr (Ne.symm hk)
      simp [setField, hk, List.lookup, hb, ih]

/-- Reading back an assigned property on any truthy object-typed value
(an object or an array, the only values the source assigns to). -/
theorem get_set_of_truthy_objType {j : Json} (hj : (j.truthy && j.isObjType) = true)
    (k : String) (v : Json) : (j.set k v).get k = v := by
  cases j <;> simp_all [Json.truthy, Json.isObjType, Json.set, Json.get, lookup_setField]

/-- Decoding inverts encoding for a single order. -/
theorem decodeOrder_encodeOrder (o : Order) : decodeOrder (encodeOrder o) = some o := rfl

/-- No match means `findIndex` fails: the first-match updater returns `none`
exactly when no order carries the id. -/
theorem setStatusFirst_none {oid s : String} {orders : List Order}
    (h : ∀ o ∈ orders, o.orderId ≠ oid) : setStatusFirst oid s orders = none := by
  induction orders with
  | nil => rfl
  | cons o os ih =>
    rw [setStatusFirst, if_neg (h o (List.mem_cons_self o os)),
        ih (fun p hp => h p (List.mem_cons_of_mem _ hp))]
    rfl

/-- The first-match updater rewrites exactly the first matching order and
keeps everything else in place. -/
theorem setStatusFirst_prepend {oid s : String} {o : Order} (post : List Order) :
    ∀ pre : List Order, (∀ p ∈ pre, p.orderId ≠ oid) → o.orderId = oid →
    setStatusFirst oid s (pre ++ o :: post) = some (pre ++ { o with status := s } :: post) := by
  intro pre
  induction pre with
  | nil =>
    intro _ ho
    simp [setStatusFirst, ho]
  | cons p pre ih =>
    intro hpre ho
    rw [List.cons_append, setStatusFirst, if_neg (hpre p (List.mem_cons_self p pre)),
        ih (fun p' hp' => hpre p' (List.mem_cons_of_mem _ hp')) ho, List.cons_append]
    rfl

/-- A status update never changes the sequence of order ids. -/
theorem setStatusFirst_map_id {oid s : String} : ∀ {orders orders' : List Order},
    setStatusFirst oid s orders = some orders' →
    orders'.map (fun o => o.orderId) = orders.map (fun o => o.orderId) := by
  intro orders
  induction orders with
  | nil => intro orders' h; simp [setStatusFirst] at h
  | cons o os ih =>
    intro orders' h
    by_cases hc : o.orderId = oid
    · rw [setStatusFirst, if_pos hc] at h
      cases h
      simp
    · rw [setStatusFirst, if_neg hc] at h
      cases hres : setStatusFirst oid s os with
      | none => rw [hres] at h; cases h
      | some os' =>
        rw [hres] at h
        cases h
        simp [ih hres]

/-- The patch endpoint either leaves the collection alone or applies a
successful first-match status update. -/
theorem patchOrders_result_cases (auth : Bool) (oid : String) (st : Option String)
    (orders : List Order) :
    (patchOrders auth oid st orders).2 = orders ∨
    ∃ s orders', st = some s ∧ setStatusFirst oid s orders = some orders' ∧
      (patchOrders auth oid st orders).2 = orders' := by
  unfold patchOrders
  repeat' split
  all_goals simp_all

/-- The delete endpoint either leaves the collection alone or filters it. -/
theorem deleteOrder_result_cases (auth : Bool) (oid : String) (orders : List Order) :
    (deleteOrder auth oid orders).2 = orders ∨
    (deleteOrder auth oid orders).2 = orders.filter (fun o => decide (o.orderId ≠ oid)) := by
  unfold deleteOrder
  repeat' split
  all_goals try simp_all
  all_goals split <;> simp

/-- The bulk-delete endpoint either leaves the collection alone or filters
it. -/
theorem bulkDelete_result_cases (auth : Bool) (ids : List String) (orders : List Order) :
    (bulkDelete auth ids orders).2 = orders ∨
    (bulkDelete auth ids orders).2 = orders.filter (fun o => decide (o.orderId ∉ ids)) := by
  unfold bulkDelete
  repeat' split
  all_goals simp_all

/-- Removing the kept elements from the length gives the number of matching
elements. -/
theorem length_sub_filter_not (p : Order → Prop) [DecidablePred p] (l : List Order) :
    l.length - (l.filter (fun a => decide (¬ p a))).length =
      (l.filter (fun a => decide (p a))).length := by
  induction l with
  | nil => rfl
  | cons a l ih =>
    have hle := List.length_filter_le (fun a => decide (¬ p a)) l
    simp only [decide_not] at ih hle ⊢
    by_cases hp : p a <;> simp [List.filter_cons, hp, List.length_cons] <;> omega

end GG

namespace GG

/-- C1 (amended: the alphabet has 32 symbols, not 33): for every creation
request whose payload passes all validation rules, the returned orderId is
`GG-` followed by exactly 10 characters drawn from the generator's 32-symbol
alphabet of uppercase letters and digits excluding the visually ambiguous
`0`, `O`, `1`, `I`, and the stored collection afterwards contains exactly one
more order than before, with the new order at the front carrying that id. -/
theorem createOrder_id_shape_and_prepend (body : Payload) (rand : Fin 10 → Nat)
    (now : String) (orders os' : List Order) (rid : String)
    (h : postOrder body (makeOrderId rand) now orders = .ok (os', rid)) :
    rid = makeOrderId rand ∧
    (∃ s : String, makeOrderId rand = "GG-" ++ s ∧ s.length = 10 ∧
      ∀ c ∈ s.data, c ∈ orderIdChars) ∧
    orderIdChars.length = 32 ∧ orderIdChars.Nodup ∧
    (∀ c ∈ orderIdChars, (c.isUpper ∨ c.isDigit) ∧ c ∉ ['0', 'O', '1', 'I']) ∧
    os'.length = orders.length + 1 ∧
    ∃ o : Order, os' = o :: orders ∧ o.orderId = rid := by
  obtain ⟨hrid, -, qty, up, -, -, -, -, hos⟩ := postOrder_ok_elim h
  subst hrid hos
  refine ⟨rfl, makeOrderId_shape rand, by decide, by decide, by decide, by simp, ?_⟩
  exact ⟨_, rfl, rfl⟩

/-- C1 witness: the theorem applied to the concrete payload `cBody`, the
all-zeros random outcome and the empty collection. -/
theorem createOrder_id_shape_witness :
    postOrder cBody (makeOrderId rand0) "t0" [] = .ok ([order0], "GG-AAAAAAAAAA") ∧
    ("GG-AAAAAAAAAA" : String) = makeOrderId rand0 ∧
    (∃ s : String, makeOrderId rand0 = "GG-" ++ s ∧ s.length = 10 ∧
      ∀ c ∈ s.data, c ∈ orderIdChars) ∧
    orderIdChars.length = 32 ∧ orderIdChars.Nodup ∧
    (∀ c ∈ orderIdChars, (c.isUpper ∨ c.isDigit) ∧ c ∉ ['0', 'O', '1', 'I']) ∧
    ([order0].length = ([] : List Order).length + 1) ∧
    ∃ o : Order, [order0] = o :: ([] : List Order) ∧ o.orderId = "GG-AAAAAAAAAA" :=
  ⟨rfl, createOrder_id_shape_and_prepend cBody rand0 "t0" [] [order0] "GG-AAAAAAAAAA" rfl⟩

/-- C1 counterexample: the claim says the identifier characters are drawn
from a 33-symbol alphabet; the generator's alphabet has exactly 32 distinct
symbols. -/
theorem id_alphabet_not_33 :
    orderIdChars.Nodup ∧ orderIdChars.length = 32 ∧ ¬ orderIdChars.length = 33 := by decide

/-- C2: every stored order gets `shipping = 70` when the trimmed,
lower-cased area is `dhaka` and `shipping = 130` when it is `outside` or
`outside dhaka`, with `total = qty * unitPrice + shipping`; any other area
value makes the create request fail with a 400 validation error. -/
theorem shipping_and_total_rules :
    (∀ body nid now orders os' rid,
      postOrder body nid now orders = .ok (os', rid) →
      ∃ o : Order, os' = o :: orders ∧
        (jsToLower (jsTrim body.area) = "dhaka" → o.area = "dhaka" ∧ o.shipping = 70) ∧
        ((jsToLower (jsTrim body.area) = "outside" ∨
          jsToLower (jsTrim body.area) = "outside dhaka") →
            o.area = "outside" ∧ o.shipping = 130) ∧
        o.total = o.qty * o.unitPrice + o.shipping) ∧
    (∀ body nid now orders, jsToLower (jsTrim body.area) ≠ "dhaka" →
      jsToLower (jsTrim body.area) ≠ "outside" →
      jsToLower (jsTrim body.area) ≠ "outside dhaka" →
      ∃ msg, postOrder body nid now orders = .error (400, msg)) := by
  constructor
  · intro body nid now orders os' rid h
    obtain ⟨-, -, qty, up, -, -, -, -, hos⟩ := postOrder_ok_elim h
    subst hos
    refine ⟨_, rfl, ?_, ?_, rfl⟩
    · intro hd
      constructor
      · show areaOf body = "dhaka"
        simp [areaOf, hd]
      · show (if areaOf body = "dhaka" then (70 : ℚ) else 130) = 70
        simp [areaOf, hd]
    · intro ho
      constructor
      · show areaOf body = "outside"
        rcases ho with h1 | h1 <;> simp [areaOf, h1]
      · show (if areaOf body = "dhaka" then (70 : ℚ) else 130) = 130
        rcases ho with h1 | h1 <;> simp [areaOf, h1]
  · intro body nid now orders h1 h2 h3
    cases hr : postOrder body nid now orders with
    | error e =>
      obtain ⟨c, msg⟩ := e
      have hc := postOrder_error_code hr
      subst hc
      exact ⟨msg, rfl⟩
    | ok v =>
      obtain ⟨os', rid⟩ := v
      obtain ⟨-, harea, -⟩ := postOrder_ok_elim hr
      simp [areaOf, h1, h2, h3] at harea

/-- C2 witness: the theorem applied to the `Dhaka` payload `cBody` and the
`mars` payload `cBadAreaBody`. -/
theorem shipping_witness :
    postOrder cBody "GG-X" "t0" [] = .ok ([buildOrder cBody "GG-X" "t0" 2 500], "GG-X") ∧
    (∃ o : Order, [buildOrder cBody "GG-X" "t0" 2 500] = o :: ([] : List Order) ∧
      (jsToLower (jsTrim cBody.area) = "dhaka" → o.area = "dhaka" ∧ o.shipping = 70) ∧
      ((jsToLower (jsTrim cBody.area) = "outside" ∨
        jsToLower (jsTrim cBody.area) = "outside dhaka") →
          o.area = "outside" ∧ o.shipping = 130) ∧
      o.total = o.qty * o.unitPrice + o.shipping) ∧
    jsToLower (jsTrim cBadAreaBody.area) ≠ "dhaka" ∧
    (∃ msg, postOrder cBadAreaBody "GG-X" "t0" [] = .error (400, msg)) :=
  ⟨rfl,
   shipping_and_total_rules.1 cBody "GG-X" "t0" [] _ _ rfl,
   by decide,
   shipping_and_total_rules.2 cBadAreaBody "GG-X" "t0" [] (by decide) (by decide) (by decide)⟩

end GG

namespace GG

/-- C3 counterexample: with the secret `abc` configured, the presented header
value ` abc` is not an exact string match of the secret, yet the gate
authorizes it (both sides are trimmed before comparison), so "authorized if
and only if ... exact string match" fails. -/
theorem auth_accepts_non_exact_match :
    jsTrim "abc" ≠ "" ∧ (" abc" : String) ≠ "abc" ∧ isAuthorized "abc" " abc" "" = true := by
  decide

/-- C3 (amended: matching is performed on the trimmed secret and trimmed
presented value, with the header taking precedence over the query parameter):
when the configured secret trims to empty every caller is authorized; when it
does not, a caller is authorized exactly when the trimmed presented value
equals the trimmed secret; unauthorized calls to the gated endpoints yield
401 with ok:false and leave the collection untouched, and with no secret the
list endpoint succeeds for any caller. -/
theorem auth_gate_spec :
    (∀ env h q, jsTrim env = "" → isAuthorized env h q = true) ∧
    (∀ env h q, jsTrim env ≠ "" →
      (isAuthorized env h q = true ↔ jsTrim (if h ≠ "" then h else q) = jsTrim env)) ∧
    (∀ os, getOrders false os = ((401, false), [])) ∧
    (∀ oid st os, patchOrders false oid st os = ((401, false), os)) ∧
    (∀ oid os, deleteOrder false oid os = ((401, false, 0), os)) ∧
    (∀ ids os, bulkDelete false ids os = ((401, false, 0), os)) ∧
    (∀ env h q os, jsTrim env = "" → getOrders (isAuthorized env h q) os = ((200, true), os)) := by
  refine ⟨?_, ?_, fun os => rfl, fun oid st os => rfl, fun oid os => rfl, fun ids os => rfl, ?_⟩
  · intro env h q he
    simp [isAuthorized, he]
  · intro env h q he
    simp [isAuthorized, he]
  · intro env h q os he
    rw [show isAuthorized env h q = true by simp [isAuthorized, he]]
    rfl

/-- C3 witness: the theorem applied to the empty secret, the secret `abc`,
and the gated endpoints with an unauthorized caller. -/
theorem auth_gate_spec_witness :
    jsTrim "" = "" ∧ isAuthorized "" "whatever" "" = true ∧
    jsTrim "abc" ≠ "" ∧
    (isAuthorized "abc" "x" "" = true ↔
      jsTrim (if ("x" : String) ≠ "" then "x" else "") = jsTrim "abc") ∧
    getOrders false [order0] = ((401, false), []) ∧
    patchOrders false "GG-X" (some "done") [order0] = ((401, false), [order0]) ∧
    deleteOrder false "GG-X" [order0] = ((401, false, 0), [order0]) ∧
    bulkDelete false ["GG-X"] [order0] = ((401, false, 0), [order0]) ∧
    getOrders (isAuthorized "" "whatever" "") [order0] = ((200, true), [order0]) :=
  ⟨rfl, auth_gate_spec.1 "" "whatever" "" rfl, by decide,
   auth_gate_spec.2.1 "abc" "x" "" (by decide),
   auth_gate_spec.2.2.1 [order0],
   auth_gate_spec.2.2.2.1 "GG-X" (some "done") [order0],
   auth_gate_spec.2.2.2.2.1 "GG-X" [order0],
   auth_gate_spec.2.2.2.2.2.1 ["GG-X"] [order0],
   auth_gate_spec.2.2.2.2.2.2 "" "whatever" "" [order0] rfl⟩

/-- C4: the load operation is total and never surfaces an error, for every
file state — a missing file is initialized to the empty document, which is
persisted and returned; an unparsable file and a falsy or non-object-typed
document are recovered to the empty document without touching the file; a
truthy object-typed document (a JSON object, or a JSON array to whose object
the property is attached) whose `orders` field is not an array gets an empty
`orders` array in the returned value; a document with an `orders` array is
passed through unchanged; and the empty document indeed holds an empty
orders collection. -/
theorem load_recovers_spec :
    readOrders .missing = (emptyDb, .parsed emptyDb) ∧
    readOrders .unparsable = (emptyDb, .unparsable) ∧
    (∀ j : Json, (j.truthy && j.isObjType) = false →
      readOrders (.parsed j) = (emptyDb, .parsed j)) ∧
    (∀ j : Json, (j.truthy && j.isObjType) = true → (j.get "orders").isArray = false →
      readOrders (.parsed j) = (j.set "orders" (.arr [] []), .parsed j) ∧
      ((readOrders (.parsed j)).1.get "orders") = .arr [] []) ∧
    (∀ j : Json, (j.truthy && j.isObjType) = true → (j.get "orders").isArray = true →
      readOrders (.parsed j) = (j, .parsed j)) ∧
    emptyDb.get "orders" = .arr [] [] := by
  refine ⟨rfl, rfl, ?_, ?_, ?_, rfl⟩
  · intro j hj
    simp [readOrders, ensureOrdersFile, hj]
  · intro j hj hfs
    have hset : readOrders (.parsed j) = (j.set "orders" (.arr [] []), .parsed j) := by
      simp [readOrders, ensureOrdersFile, hj, hfs]
    refine ⟨hset, ?_⟩
    rw [hset]
    exact get_set_of_truthy_objType hj _ _
  · intro j hj hfs
    simp [readOrders, ensureOrdersFile, hj, hfs]

/-- C4 witness: the theorem applied to the non-object document `5`, to an
object document without an `orders` field, to an array document (whose array
object receives the `orders` property), and to a well-formed document. -/
theorem load_recovers_spec_witness :
    ((Json.num 5).truthy && (Json.num 5).isObjType) = false ∧
    readOrders (.parsed (.num 5)) = (emptyDb, .parsed (.num 5)) ∧
    ((Json.obj [("foo", Json.null)]).truthy && (Json.obj [("foo", Json.null)]).isObjType) = true ∧
    ((Json.obj [("foo", Json.null)]).get "orders").isArray = false ∧
    (readOrders (.parsed (.obj [("foo", Json.null)])) =
      ((Json.obj [("foo", Json.null)]).set "orders" (.arr [] []),
        .parsed (.obj [("foo", Json.null)])) ∧
      ((readOrders (.parsed (.obj [("foo", Json.null)]))).1.get "orders") = .arr [] []) ∧
    ((Json.arr [Json.num 1] []).truthy && (Json.arr [Json.num 1] []).isObjType) = true ∧
    ((Json.arr [Json.num 1] []).get "orders").isArray = false ∧
    (readOrders (.parsed (.arr [Json.num 1] [])) =
      ((Json.arr [Json.num 1] []).set "orders" (.arr [] []),
        .parsed (.arr [Json.num 1] [])) ∧
      ((readOrders (.parsed (.arr [Json.num 1] []))).1.get "orders") = .arr [] []) ∧
    ((encodeDb [order0]).truthy && (encodeDb [order0]).isObjType) = true ∧
    ((encodeDb [order0]).get "orders").isArray = true ∧
    readOrders (.parsed (encodeDb [order0])) = (encodeDb [order0], .parsed (encodeDb [order0])) :=
  ⟨by decide, load_recovers_spec.2.2.1 (Json.num 5) (by decide),
   rfl, rfl, load_recovers_spec.2.2.2.1 (Json.obj [("foo", Json.null)]) rfl rfl,
   rfl, rfl, load_recovers_spec.2.2.2.1 (Json.arr [Json.num 1] []) rfl rfl,
   rfl, rfl, load_recovers_spec.2.2.2.2.1 (encodeDb [order0]) rfl rfl⟩

/-- C5: saving any collection of orders and loading it back yields the very
same document, and decoding it recovers the identical collection — the same
sequence of orders with the same fields and values. -/
theorem save_load_round_trip (os : List Order) :
    readOrders (writeOrders (encodeDb os)) = (encodeDb os, writeOrders (encodeDb os)) ∧
    decodeDb (encodeDb os) = some os := by
  constructor
  · rfl
  · show (os.map encodeOrder).mapM decodeOrder = some os
    induction os with
    | nil => rfl
    | cons o os ih =>
      rw [List.map_cons, List.mapM_cons, decodeOrder_encodeOrder, ih]
      rfl

end GG

namespace GG

/-- C6 counterexample: create performs no uniqueness check — starting from
the singleton collection holding `order0` (distinct ids), the random outcome
`rand0` makes create insert a second order with the very same id, so the
distinct-ids invariant is not preserved by create for every outcome of the
random source. -/
theorem create_inserts_duplicate_id :
    distinctIds [order0] ∧
    postOrder cBody (makeOrderId rand0) "t1" [order0] =
      .ok ([order1, order0], "GG-AAAAAAAAAA") ∧
    ¬ distinctIds [order1, order0] :=
  ⟨by decide, rfl, by decide⟩

/-- C6 (amended: update-status, delete and bulk-delete always preserve
pairwise-distinct orderIds; create preserves them exactly when the freshly
generated id does not already occur in the collection — no uniqueness check
is performed, so a colliding random outcome inserts a duplicate). -/
theorem ops_preserve_distinct_ids :
    (∀ (auth : Bool) oid st orders, distinctIds orders →
      distinctIds (patchOrders auth oid st orders).2) ∧
    (∀ (auth : Bool) oid orders, distinctIds orders →
      distinctIds (deleteOrder auth oid orders).2) ∧
    (∀ (auth : Bool) ids orders, distinctIds orders →
      distinctIds (bulkDelete auth ids orders).2) ∧
    (∀ body nid now orders os' rid, distinctIds orders →
      nid ∉ orders.map (fun o => o.orderId) →
      postOrder body nid now orders = .ok (os', rid) → distinctIds os') := by
  refine ⟨?_, ?_, ?_, ?_⟩
  · intro auth oid st orders hd
    rcases patchOrders_result_cases auth oid st orders with h | ⟨s, orders', -, hres, h⟩
    · rw [h]; exact hd
    · rw [h]
      unfold distinctIds at hd ⊢
      rw [setStatusFirst_map_id hres]
      exact hd
  · intro auth oid orders hd
    rcases deleteOrder_result_cases auth oid orders with h | h <;> rw [h]
    · exact hd
    · exact hd.sublist ((List.filter_sublist orders).map _)
  · intro auth ids orders hd
    rcases bulkDelete_result_cases auth ids orders with h | h <;> rw [h]
    · exact hd
    · exact hd.sublist ((List.filter_sublist orders).map _)
  · intro body nid now orders os' rid hd hnid h
    obtain ⟨-, -, qty, up, -, -, -, -, hos⟩ := postOrder_ok_elim h
    subst hos
    unfold distinctIds at hd ⊢
    rw [List.map_cons]
    exact List.Nodup.cons (by simpa using hnid) hd

/-- C6 witness: the theorem applied to the singleton collection holding
`order0`, each operation at a concrete input, and a create whose fresh id
`GG-BBBBBBBBBB` is not present. -/
theorem ops_preserve_distinct_ids_witness :
    distinctIds [order0] ∧
    distinctIds (patchOrders true "GG-X" (some "done") [order0]).2 ∧
    distinctIds (deleteOrder true "GG-X" [order0]).2 ∧
    distinctIds (bulkDelete true ["GG-X"] [order0]).2 ∧
    ("GG-BBBBBBBBBB" ∉ [order0].map (fun o => o.orderId) ∧
      distinctIds (buildOrder cBody "GG-BBBBBBBBBB" "t1" 2 500 :: [order0])) :=
  ⟨by decide,
   ops_preserve_distinct_ids.1 true "GG-X" (some "done") [order0] (by decide),
   ops_preserve_distinct_ids.2.1 true "GG-X" [order0] (by decide),
   ops_preserve_distinct_ids.2.2.1 true ["GG-X"] [order0] (by decide),
   ⟨by decide, ops_preserve_distinct_ids.2.2.2 cBody "GG-BBBBBBBBBB" "t1" [order0]
      (buildOrder cBody "GG-BBBBBBBBBB" "t1" 2 500 :: [order0]) "GG-BBBBBBBBBB"
      (by decide) (by decide) rfl⟩⟩

/-- C7: for authorized update-status requests, a missing or empty status
fails with 400 and leaves the collection unchanged; an orderId matching no
order fails with 404 and leaves the collection unchanged; otherwise only the
`status` field of the first matching order is replaced, every other field of
that order and every other order being untouched. -/
theorem patch_updates_only_status :
    (∀ oid orders, patchOrders true oid none orders = ((400, false), orders)) ∧
    (∀ oid orders, patchOrders true oid (some "") orders = ((400, false), orders)) ∧
    (∀ oid s orders, s ≠ "" → (∀ o ∈ orders, o.orderId ≠ oid) →
      patchOrders true oid (some s) orders = ((404, false), orders)) ∧
    (∀ oid s (pre : List Order) (o : Order) (post : List Order), s ≠ "" →
      (∀ p ∈ pre, p.orderId ≠ oid) → o.orderId = oid →
      patchOrders true oid (some s) (pre ++ o :: post) =
        ((200, true), pre ++ { o with status := s } :: post)) := by
  refine ⟨fun oid orders => rfl, fun oid orders => rfl, ?_, ?_⟩
  · intro oid s orders hs hno
    simp [patchOrders, hs, setStatusFirst_none hno]
  · intro oid s pre o post hs hpre ho
    simp [patchOrders, hs, setStatusFirst_prepend post pre hpre ho]

/-- C7 witness: the theorem applied to the singleton collection holding
`order0`, with a missing status, an empty status, an unknown id, and a
matching update. -/
theorem patch_witness :
    patchOrders true "GG-X" none [order0] = ((400, false), [order0]) ∧
    patchOrders true "GG-X" (some "") [order0] = ((400, false), [order0]) ∧
    (("done" : String) ≠ "" ∧ (∀ o ∈ [order0], o.orderId ≠ "GG-X") ∧
      patchOrders true "GG-X" (some "done") [order0] = ((404, false), [order0])) ∧
    (("done" : String) ≠ "" ∧ order0.orderId = "GG-AAAAAAAAAA" ∧
      patchOrders true "GG-AAAAAAAAAA" (some "done") ([] ++ order0 :: []) =
        ((200, true), [] ++ { order0 with status := "done" } :: [])) :=
  ⟨patch_updates_only_status.1 "GG-X" [order0],
   patch_updates_only_status.2.1 "GG-X" [order0],
   ⟨by decide, by decide,
    patch_updates_only_status.2.2.1 "GG-X" "done" [order0] (by decide) (by decide)⟩,
   ⟨by decide, by decide,
    patch_updates_only_status.2.2.2 "GG-AAAAAAAAAA" "done" [] order0 [] (by decide)
      (by simp) (by decide)⟩⟩

/-- C8: an authorized bulk-delete with an empty (or absent, hence coerced to
empty) orderIds list fails with 400 leaving the collection unchanged; a
non-empty list removes in one pass exactly the orders whose id occurs in the
list, reporting as `deleted` the number of orders removed — zero removals
are still a 200 success, nonexistent ids being ignored. -/
theorem bulk_delete_spec :
    (∀ orders, bulkDelete true [] orders = ((400, false, 0), orders)) ∧
    (∀ (ids : List String) orders, ids ≠ [] →
      bulkDelete true ids orders =
        ((200, true, (orders.filter (fun o => decide (o.orderId ∈ ids))).length),
          orders.filter (fun o => decide (o.orderId ∉ ids)))) := by
  refine ⟨fun orders => rfl, ?_⟩
  intro ids orders hids
  have hlen : ¬ ids.length = 0 := fun h => hids (List.length_eq_zero.mp h)
  simp only [bulkDelete, if_neg hlen]
  rw [length_sub_filter_not (fun o => o.orderId ∈ ids)]
  simp

/-- C8 witness: the theorem applied to the spec §8 example — two requested
ids of which only one exists: one order deleted, the other id ignored. -/
theorem bulk_delete_witness :
    bulkDelete true [] [order0] = ((400, false, 0), [order0]) ∧
    ((["GG-AAAAAAAAAA", "GG-XXXXXXXXXX"] : List String) ≠ [] ∧
      bulkDelete true ["GG-AAAAAAAAAA", "GG-XXXXXXXXXX"] [order0, orderB] =
        ((200, true,
          ([order0, orderB].filter (fun o =>
            decide (o.orderId ∈ (["GG-AAAAAAAAAA", "GG-XXXXXXXXXX"] : List String)))).length),
          [order0, orderB].filter (fun o =>
            decide (o.orderId ∉ (["GG-AAAAAAAAAA", "GG-XXXXXXXXXX"] : List String))))) :=
  ⟨bulk_delete_spec.1 [order0],
   ⟨by decide, bulk_delete_spec.2 ["GG-AAAAAAAAAA", "GG-XXXXXXXXXX"] [order0, orderB]
      (by decide)⟩⟩

/-- C10: the authorization gate trims whitespace from both the configured
secret and the presented token before comparing — a whitespace-only secret
behaves exactly like no secret at all (every caller authorized), and a
presented token equal to the secret after trimming both sides is accepted. -/
theorem auth_trims_secret_and_token :
    (∀ env h q, jsTrim env = "" →
      isAuthorized env h q = true ∧ isAuthorized env h q = isAuthorized "" h q) ∧
    (∀ env h q, jsTrim (if h ≠ "" then h else q) = jsTrim env →
      isAuthorized env h q = true) := by
  constructor
  · intro env h q he
    have h0 : jsTrim "" = "" := rfl
    constructor <;> simp [isAuthorized, he, h0]
  · intro env h q ht
    simp only [ite_not] at ht
    by_cases he : jsTrim env = ""
    · simp [isAuthorized, he]
    · simp [isAuthorized, he, ite_not, ht]

/-- C10 witness: the theorem applied to the whitespace-only secret `"   "`
and to the secret `" abc"` with presented token `"abc "`. -/
theorem auth_trims_witness :
    jsTrim "   " = "" ∧
    (isAuthorized "   " "tok" "" = true ∧
      isAuthorized "   " "tok" "" = isAuthorized "" "tok" "") ∧
    jsTrim (if ("abc " : String) ≠ "" then "abc " else "") = jsTrim " abc" ∧
    isAuthorized " abc" "abc " "" = true :=
  ⟨by decide, auth_trims_secret_and_token.1 "   " "tok" "" (by decide),
   by decide, auth_trims_secret_and_token.2 " abc" "abc " "" (by decide)⟩

end GG
